import Mathlib

/-!
Verification development for the agronomist repository's post-model reasoning
layer.  The Lean definitions below are a shallow embedding of the Python code in
src/backend/utils/helpers.py and src/backend/services/sustainability_service.py.
Python floats are modelled as exact rationals, Python dicts with string keys as
association lists (with lookup defaults mirroring dict.get), and numpy argsort
as a stable ascending sort of indices keyed by value with the original index as
secondary key (numpy's insertion sort for small inputs, and its stable kind, are
exactly this order).  Python int() truncation toward zero is modelled by pyInt.
-/

namespace Agronomist

/-- Round half to even of a rational, modelling the rounding used by CPython's
fixed-point float formatting. -/
def rhe (q : ℚ) : ℤ :=
  let f := ⌊q⌋
  let r := q - f
  if r < 1/2 then f
  else if 1/2 < r then f + 1
  else if f % 2 = 0 then f else f + 1

/-- Left-pad a string with zeros up to the given length. -/
def padZeros (s : String) (len : ℕ) : String :=
  String.mk (List.replicate (len - s.length) '0') ++ s

/-- Model of Python fixed-point formatting, as in the format specifier .0f or
.1f: round half to even at the requested number of decimals and render the
digits, with a decimal point when decimals is positive. -/
def fmtFixed (decimals : ℕ) (q : ℚ) : String :=
  let scaled := rhe (q * (10 : ℚ) ^ decimals)
  let sign := if scaled < 0 then "-" else ""
  let m := scaled.natAbs
  if decimals = 0 then sign ++ toString m
  else
    let p := 10 ^ decimals
    sign ++ toString (m / p) ++ "." ++ padZeros (toString (m % p)) decimals

/-- Embedding of helpers.format_confidence_score: format probability times 100
with one decimal place followed by a percent sign. -/
def format_confidence_score (probability : ℚ) : String :=
  fmtFixed 1 (probability * 100) ++ "%"

/-- A single prediction dict as built by helpers.get_top_n_predictions. -/
structure Prediction where
  crop : String
  confidence : ℚ
  confidence_percent : String
deriving DecidableEq

/-- Comparison used to model numpy's stable ascending argsort: index i comes
before index j when its probability is smaller, with the original index as
secondary key on equal probabilities. -/
def argsortLe (p : List ℚ) (i j : ℕ) : Prop :=
  p.getD i 0 < p.getD j 0 ∨ (p.getD i 0 = p.getD j 0 ∧ i ≤ j)

instance (p : List ℚ) : DecidableRel (argsortLe p) := fun i j => by
  unfold argsortLe; infer_instance

instance (p : List ℚ) : IsTotal ℕ (argsortLe p) := ⟨by
  intro a b
  rcases lt_trichotomy (p.getD a 0) (p.getD b 0) with h | h | h
  · exact Or.inl (Or.inl h)
  · rcases Nat.le_total a b with hab | hab
    · exact Or.inl (Or.inr ⟨h, hab⟩)
    · exact Or.inr (Or.inr ⟨h.symm, hab⟩)
  · exact Or.inr (Or.inl h)⟩

instance (p : List ℚ) : IsTrans ℕ (argsortLe p) := ⟨by
  intro a b c hab hbc
  rcases hab with h1 | ⟨h1, h1'⟩ <;> rcases hbc with h2 | ⟨h2, h2'⟩
  · exact Or.inl (h1.trans h2)
  · exact Or.inl (h2 ▸ h1)
  · exact Or.inl (h1 ▸ h2)
  · exact Or.inr ⟨h1.trans h2, h1'.trans h2'⟩⟩

/-- Model of numpy.argsort on a probability vector: the list of all indices
sorted ascending by probability, equal probabilities ordered by index. -/
def argsort (p : List ℚ) : List ℕ :=
  List.insertionSort (argsortLe p) (List.range p.length)

/-- Model of the Python slice l[-n:]: for n = 0 the whole list (as -0 is 0),
otherwise the last n elements. -/
def takeLast {α : Type} (n : ℕ) (l : List α) : List α :=
  if n = 0 then l else l.drop (l.length - n)

/-- The index list np.argsort(probabilities)[-n:][::-1] from
helpers.get_top_n_predictions. -/
def top_indices (p : List ℚ) (n : ℕ) : List ℕ :=
  (takeLast n (argsort p)).reverse

/-- Embedding of helpers.get_top_n_predictions: select the top indices and
build one prediction dict per index. -/
def get_top_n_predictions (probabilities : List ℚ) (labels : List String)
    (n : ℕ := 3) : List Prediction :=
  (top_indices probabilities n).map (fun idx =>
    { crop := labels.getD idx ""
      confidence := probabilities.getD idx 0
      confidence_percent := format_confidence_score (probabilities.getD idx 0) })

/-- Embedding of helpers._get_feature_explanation: one canned phrase per
feature chosen by fixed thresholds, empty string for unknown features. -/
def get_feature_explanation (feature : String) (value : ℚ) (crop : String) : String :=
  if feature = "rainfall" then
    if value > 200 then
      "High rainfall (" ++ fmtFixed 0 value ++ "mm) provides excellent moisture for " ++ crop ++ "."
    else if value > 100 then
      "Moderate rainfall (" ++ fmtFixed 0 value ++ "mm) is suitable for " ++ crop ++ "."
    else
      "Low rainfall (" ++ fmtFixed 0 value ++ "mm) matches " ++ crop ++ "\x27s water requirements."
  else if feature = "humidity" then
    if value > 80 then
      "High humidity (" ++ fmtFixed 0 value ++ "%) creates ideal conditions for " ++ crop ++ "."
    else if value > 60 then
      "Moderate humidity (" ++ fmtFixed 0 value ++ "%) supports " ++ crop ++ " growth."
    else
      "Low humidity (" ++ fmtFixed 0 value ++ "%) suits " ++ crop ++ "\x27s climate needs."
  else if feature = "temperature" then
    if value > 30 then
      "Warm temperature (" ++ fmtFixed 1 value ++ "°C) is optimal for " ++ crop ++ "."
    else if value > 20 then
      "Moderate temperature (" ++ fmtFixed 1 value ++ "°C) favors " ++ crop ++ " cultivation."
    else
      "Cool temperature (" ++ fmtFixed 1 value ++ "°C) is suitable for " ++ crop ++ "."
  else if feature = "N" then
    if value > 80 then
      "High nitrogen content (" ++ fmtFixed 0 value ++ ") supports vigorous " ++ crop ++ " growth."
    else if value > 40 then
      "Moderate nitrogen (" ++ fmtFixed 0 value ++ ") is adequate for " ++ crop ++ "."
    else
      "Low nitrogen (" ++ fmtFixed 0 value ++ ") matches " ++ crop ++ "\x27s nutrient needs."
  else if feature = "P" then
    if value > 60 then
      "High phosphorus (" ++ fmtFixed 0 value ++ ") promotes strong " ++ crop ++ " root development."
    else
      "Phosphorus level (" ++ fmtFixed 0 value ++ ") is suitable for " ++ crop ++ "."
  else if feature = "K" then
    if value > 40 then
      "High potassium (" ++ fmtFixed 0 value ++ ") enhances " ++ crop ++ " quality and disease resistance."
    else
      "Potassium level (" ++ fmtFixed 0 value ++ ") meets " ++ crop ++ "\x27s requirements."
  else if feature = "pH" then
    if 6.0 ≤ value ∧ value ≤ 7.5 then
      "Neutral pH (" ++ fmtFixed 1 value ++ ") is ideal for " ++ crop ++ "."
    else if value < 6.0 then
      "Acidic soil (pH " ++ fmtFixed 1 value ++ ") suits " ++ crop ++ " well."
    else
      "Alkaline soil (pH " ++ fmtFixed 1 value ++ ") is appropriate for " ++ crop ++ "."
  else ""

/-- Descending-by-weight comparison on (feature, weight) pairs, used to model
Python sorted(items, key value, reverse True). -/
def impGe (a b : String × ℚ) : Prop := b.2 ≤ a.2

instance : DecidableRel impGe := fun a b => by
  unfold impGe; infer_instance

/-- Model of Python sorted(items, key the weight, reverse True): a stable
descending sort, equal weights keeping their original order. -/
def pySortDesc (l : List (String × ℚ)) : List (String × ℚ) :=
  List.insertionSort impGe l

/-- Embedding of helpers.generate_human_readable_explanation: take the top 3
features by global importance, keep the non-empty per-feature phrases in that
order, and join them with single spaces, falling back to a generic sentence. -/
def generate_human_readable_explanation (features : List (String × ℚ))
    (crop : String) (feature_importance : List (String × ℚ)) : String :=
  let sorted_features := (pySortDesc feature_importance).take 3
  let explanations := (sorted_features.map (fun fi =>
      get_feature_explanation fi.1 ((features.lookup fi.1).getD 0) crop)).filter
        (fun s => s ≠ "")
  if explanations.isEmpty then
    crop ++ " is suitable for the given soil and climate conditions."
  else
    String.intercalate " " explanations

/-- Nutrient triple, the value type of the crop consumption table and of the
remaining and depletion_percent dicts. -/
structure Npk where
  N : ℚ
  P : ℚ
  K : ℚ
deriving DecidableEq

/-- The soil_params dict: every key optional, defaults applied at each get as
in the Python code. -/
structure SoilParams where
  N : Option ℚ := none
  P : Option ℚ := none
  K : Option ℚ := none
  pH : Option ℚ := none
  rainfall : Option ℚ := none
deriving DecidableEq

/-- The depletion report dict of _calculate_nutrient_depletion. -/
structure Depletion where
  consumption : Npk
  remaining : Npk
  depletion_percent : Npk
  severity : String
deriving DecidableEq

/-- The water risk dict of _calculate_water_risk. -/
structure WaterRisk where
  water_need : ℚ
  available_water : ℚ
  deficit : ℚ
  surplus : ℚ
  risk_level : String
  message : String
deriving DecidableEq

/-- One rotation suggestion entry. -/
structure Suggestion where
  reason : String
  crops : List String
  benefit : String
deriving DecidableEq

/-- The crop rotation dict of _suggest_crop_rotation. -/
structure Rotation where
  current_crop : String
  suggestions : List Suggestion
deriving DecidableEq

/-- The full report dict returned by analyze_soil_impact. -/
structure SustainabilityReport where
  crop : String
  sustainability_score : ℤ
  nutrient_depletion : Depletion
  water_risk : WaterRisk
  crop_rotation : Rotation
  recommendations : List String
deriving DecidableEq

/-- Crop nutrient consumption table CROP_NPK_CONSUMPTION (kg/ha per season). -/
def CROP_NPK_CONSUMPTION : List (String × Npk) :=
  [("rice", ⟨120, 60, 60⟩),
   ("maize", ⟨150, 75, 50⟩),
   ("chickpea", ⟨20, 60, 40⟩),
   ("kidneybeans", ⟨30, 50, 50⟩),
   ("pigeonpeas", ⟨25, 50, 40⟩),
   ("mothbeans", ⟨30, 45, 45⟩),
   ("mungbean", ⟨25, 50, 50⟩),
   ("blackgram", ⟨30, 50, 45⟩),
   ("lentil", ⟨20, 55, 40⟩),
   ("pomegranate", ⟨100, 50, 100⟩),
   ("banana", ⟨200, 80, 200⟩),
   ("mango", ⟨150, 100, 120⟩),
   ("grapes", ⟨120, 80, 150⟩),
   ("watermelon", ⟨100, 60, 80⟩),
   ("muskmelon", ⟨90, 55, 75⟩),
   ("apple", ⟨130, 90, 110⟩),
   ("orange", ⟨140, 70, 100⟩),
   ("papaya", ⟨110, 80, 90⟩),
   ("coconut", ⟨100, 50, 120⟩),
   ("cotton", ⟨120, 60, 60⟩),
   ("jute", ⟨80, 40, 40⟩),
   ("coffee", ⟨100, 50, 80⟩)]

/-- Crop water requirement table CROP_WATER_NEEDS (mm per season). -/
def CROP_WATER_NEEDS : List (String × ℚ) :=
  [("rice", 1200), ("maize", 600), ("chickpea", 400), ("kidneybeans", 500),
   ("pigeonpeas", 450), ("mothbeans", 400), ("mungbean", 350), ("blackgram", 400),
   ("lentil", 450), ("pomegranate", 800), ("banana", 1500), ("mango", 1000),
   ("grapes", 900), ("watermelon", 500), ("muskmelon", 450), ("apple", 800),
   ("orange", 900), ("papaya", 800), ("coconut", 1200), ("cotton", 700),
   ("jute", 600), ("coffee", 1000)]

/-- Embedding of _get_depletion_severity: bucket the average of the three
given depletion percentages. -/
def get_depletion_severity (n_dep p_dep k_dep : ℚ) : String :=
  let avg_depletion := (n_dep + p_dep + k_dep) / 3
  if avg_depletion > 70 then "severe"
  else if avg_depletion > 50 then "high"
  else if avg_depletion > 30 then "moderate"
  else "low"

/-- Embedding of _calculate_nutrient_depletion.  Note that the severity is
computed from the uncapped per-nutrient percentages while the reported
depletion_percent entries are capped at 100. -/
def calculate_nutrient_depletion (crop : String) (soil_params : SoilParams) : Depletion :=
  let consumption := (CROP_NPK_CONSUMPTION.lookup crop).getD ⟨100, 50, 50⟩
  let current_n := soil_params.N.getD 50
  let current_p := soil_params.P.getD 50
  let current_k := soil_params.K.getD 50
  let remaining_n := max 0 (current_n - consumption.N)
  let remaining_p := max 0 (current_p - consumption.P)
  let remaining_k := max 0 (current_k - consumption.K)
  let n_depletion := consumption.N / max current_n 1 * 100
  let p_depletion := consumption.P / max current_p 1 * 100
  let k_depletion := consumption.K / max current_k 1 * 100
  { consumption := consumption
    remaining := ⟨remaining_n, remaining_p, remaining_k⟩
    depletion_percent := ⟨min 100 n_depletion, min 100 p_depletion, min 100 k_depletion⟩
    severity := get_depletion_severity n_depletion p_depletion k_depletion }

/-- Embedding of _calculate_water_risk: seasonal rainfall is four times the
monthly rainfall, and the risk level and message come from the deficit and
surplus thresholds. -/
def calculate_water_risk (crop : String) (rainfall : ℚ) : WaterRisk :=
  let water_need := (CROP_WATER_NEEDS.lookup crop).getD 600
  let seasonal_rainfall := rainfall * 4
  let water_deficit := max 0 (water_need - seasonal_rainfall)
  let water_surplus := max 0 (seasonal_rainfall - water_need)
  let risk :=
    if water_deficit > 400 then
      ("high", "Significant irrigation needed (" ++ fmtFixed 0 water_deficit ++ "mm deficit)")
    else if water_deficit > 200 then
      ("medium", "Moderate irrigation required (" ++ fmtFixed 0 water_deficit ++ "mm deficit)")
    else if water_surplus > 400 then
      ("medium", "Excess water may cause issues (" ++ fmtFixed 0 water_surplus ++ "mm surplus)")
    else
      ("low", "Water availability is adequate")
  { water_need := water_need
    available_water := seasonal_rainfall
    deficit := water_deficit
    surplus := water_surplus
    risk_level := risk.1
    message := risk.2 }

/-- Embedding of _suggest_crop_rotation: collect the triggered suggestions in
order and fall back to the soil-health-is-good entry when none triggered. -/
def suggest_crop_rotation (current_crop : String) (depletion : Depletion) : Rotation :=
  let nitrogen_fixers := ["chickpea", "pigeonpeas", "lentil", "mungbean", "blackgram"]
  let light_feeders := ["mothbeans", "jute", "watermelon", "muskmelon"]
  let s1 : List Suggestion :=
    if depletion.depletion_percent.N > 60 then
      [⟨"High nitrogen depletion", nitrogen_fixers,
        "These crops will restore nitrogen to the soil"⟩]
    else []
  let avg_depletion := (depletion.depletion_percent.N + depletion.depletion_percent.P
    + depletion.depletion_percent.K) / 3
  let s2 : List Suggestion :=
    if avg_depletion > 50 then
      [⟨"Overall nutrient depletion", light_feeders,
        "These crops have lower nutrient requirements"⟩]
    else []
  let s3 : List Suggestion :=
    if depletion.severity = "severe" then
      [⟨"Severe soil depletion", ["fallow period with cover crops"],
        "Allow soil to recover naturally"⟩]
    else []
  let suggestions := s1 ++ s2 ++ s3
  { current_crop := current_crop
    suggestions :=
      if suggestions.isEmpty then
        [⟨"Soil health is good", ["Continue with similar crops or diversify"],
          "Maintain soil balance"⟩]
      else suggestions }

/-- Model of Python int(): truncation of a rational toward zero. -/
def pyInt (q : ℚ) : ℤ := if 0 ≤ q then ⌊q⌋ else ⌈q⌉

/-- Embedding of _calculate_sustainability_score: start at 100, subtract for
depletion and water risk, add the pH bonus, truncate with int() and clamp
to the 0 to 100 range. -/
def calculate_sustainability_score (depletion : Depletion) (water_risk : WaterRisk)
    (soil_params : SoilParams) : ℤ :=
  let avg_depletion := (depletion.depletion_percent.N + depletion.depletion_percent.P
    + depletion.depletion_percent.K) / 3
  let score : ℚ := 100 - avg_depletion * 0.3
  let score :=
    if water_risk.risk_level = "high" then score - 20
    else if water_risk.risk_level = "medium" then score - 10
    else score
  let pH := soil_params.pH.getD 7
  let score := if 6.0 ≤ pH ∧ pH ≤ 7.5 then score + 5 else score
  max 0 (min 100 (pyInt score))

/-- Embedding of _generate_recommendations: the triggered advice strings in
order, with the maintain-practices fallback when none triggered. -/
def generate_recommendations (crop : String) (depletion : Depletion)
    (water_risk : WaterRisk) (score : ℤ) : List String :=
  let r1 : List String :=
    if depletion.depletion_percent.N > 50 then
      ["Apply nitrogen-rich fertilizers or compost before next planting"]
    else []
  let r2 : List String :=
    if depletion.depletion_percent.P > 50 then
      ["Add phosphate fertilizers to restore phosphorus levels"]
    else []
  let r3 : List String :=
    if depletion.depletion_percent.K > 50 then
      ["Use potash or wood ash to replenish potassium"]
    else []
  let r4 : List String :=
    if water_risk.risk_level = "high" then
      ["Install drip irrigation system to conserve water",
       "Use mulching to reduce water evaporation"]
    else if water_risk.surplus > 300 then
      ["Ensure proper drainage to prevent waterlogging"]
    else []
  let r5 : List String :=
    if score < 60 then
      ["Consider crop rotation to improve soil health",
       "Add organic matter to enhance soil structure"]
    else []
  let recommendations := r1 ++ r2 ++ r3 ++ r4 ++ r5
  if recommendations.isEmpty then ["Maintain current sustainable practices"]
  else recommendations

/-- Model of Python str.lower() for the ASCII crop names used here. -/
def lower (s : String) : String := String.mk (s.data.map Char.toLower)

/-- Embedding of SustainabilityService.analyze_soil_impact.  The
duration_months parameter is accepted, as in the source, and never read. -/
def analyze_soil_impact (crop : String) (soil_params : SoilParams)
    (duration_months : ℤ := 4) : SustainabilityReport :=
  let crop_lower := lower crop
  let depletion := calculate_nutrient_depletion crop_lower soil_params
  let water_risk := calculate_water_risk crop_lower (soil_params.rainfall.getD 0)
  let rotation := suggest_crop_rotation crop_lower depletion
  let sustainability_score := calculate_sustainability_score depletion water_risk soil_params
  { crop := crop
    sustainability_score := sustainability_score
    nutrient_depletion := depletion
    water_risk := water_risk
    crop_rotation := rotation
    recommendations := generate_recommendations crop_lower depletion water_risk
      sustainability_score }

/-- Per-feature threshold ladder as the specification states it, feature by
feature: rainfall over 200 high, over 100 moderate, else low; humidity over 80
and over 60; temperature over 30 and over 20; N over 80 and over 40; P over 60;
K over 40; pH between 6.0 and 7.5 neutral, below 6.0 acidic, else alkaline;
no phrase for any other feature name. -/
def spec_feature_phrase (feature : String) (value : ℚ) (crop : String) : String :=
  if feature = "rainfall" then
    if value > 200 then
      "High rainfall (" ++ fmtFixed 0 value ++ "mm) provides excellent moisture for " ++ crop ++ "."
    else if value > 100 then
      "Moderate rainfall (" ++ fmtFixed 0 value ++ "mm) is suitable for " ++ crop ++ "."
    else
      "Low rainfall (" ++ fmtFixed 0 value ++ "mm) matches " ++ crop ++ "\x27s water requirements."
  else if feature = "humidity" then
    if value > 80 then
      "High humidity (" ++ fmtFixed 0 value ++ "%) creates ideal conditions for " ++ crop ++ "."
    else if value > 60 then
      "Moderate humidity (" ++ fmtFixed 0 value ++ "%) supports " ++ crop ++ " growth."
    else
      "Low humidity (" ++ fmtFixed 0 value ++ "%) suits " ++ crop ++ "\x27s climate needs."
  else if feature = "temperature" then
    if value > 30 then
      "Warm temperature (" ++ fmtFixed 1 value ++ "°C) is optimal for " ++ crop ++ "."
    else if value > 20 then
      "Moderate temperature (" ++ fmtFixed 1 value ++ "°C) favors " ++ crop ++ " cultivation."
    else
      "Cool temperature (" ++ fmtFixed 1 value ++ "°C) is suitable for " ++ crop ++ "."
  else if feature = "N" then
    if value > 80 then
      "High nitrogen content (" ++ fmtFixed 0 value ++ ") supports vigorous " ++ crop ++ " growth."
    else if value > 40 then
      "Moderate nitrogen (" ++ fmtFixed 0 value ++ ") is adequate for " ++ crop ++ "."
    else
      "Low nitrogen (" ++ fmtFixed 0 value ++ ") matches " ++ crop ++ "\x27s nutrient needs."
  else if feature = "P" then
    if value > 60 then
      "High phosphorus (" ++ fmtFixed 0 value ++ ") promotes strong " ++ crop ++ " root development."
    else
      "Phosphorus level (" ++ fmtFixed 0 value ++ ") is suitable for " ++ crop ++ "."
  else if feature = "K" then
    if value > 40 then
      "High potassium (" ++ fmtFixed 0 value ++ ") enhances " ++ crop ++ " quality and disease resistance."
    else
      "Potassium level (" ++ fmtFixed 0 value ++ ") meets " ++ crop ++ "\x27s requirements."
  else if feature = "pH" then
    if 6.0 ≤ value ∧ value ≤ 7.5 then
      "Neutral pH (" ++ fmtFixed 1 value ++ ") is ideal for " ++ crop ++ "."
    else if value < 6.0 then
      "Acidic soil (pH " ++ fmtFixed 1 value ++ ") suits " ++ crop ++ " well."
    else
      "Alkaline soil (pH " ++ fmtFixed 1 value ++ ") is appropriate for " ++ crop ++ "."
  else ""

/-- Narrative generation exactly as the specification words it: select the top
3 features by global importance (stable descending order), keep each selected
feature's ladder phrase when it yields one, concatenate those phrases with
single spaces in selection order, and fall back to the generic sentence when no
selected feature yields a phrase. -/
def explanationSpec (features : List (String × ℚ)) (crop : String)
    (importance : List (String × ℚ)) : String :=
  let top3 := (pySortDesc importance).take 3
  let phrases := top3.filterMap (fun fi =>
    let s := spec_feature_phrase fi.1 ((features.lookup fi.1).getD 0) crop
    if s = "" then none else some s)
  if phrases = [] then
    crop ++ " is suitable for the given soil and climate conditions."
  else
    String.intercalate " " phrases

/-- An association-list lookup that finds a value only returns values stored in
the list. -/
lemma lookup_mem {β : Type} {l : List (String × β)} {k : String} {v : β}
    (h : l.lookup k = some v) : v ∈ l.map Prod.snd := by
  induction l with
  | nil => simp at h
  | cons a t ih =>
    cases a with
    | mk k' v' =>
      simp only [List.lookup] at h
      split at h
      · obtain rfl := Option.some.inj h
        simp
      · simp only [List.map_cons]
        exact List.mem_cons_of_mem _ (ih h)

/-- Every consumption profile the depletion calculation can use, the default
included, has positive N, P and K entries. -/
lemma consumption_pos (crop : String) :
    0 < ((CROP_NPK_CONSUMPTION.lookup crop).getD ⟨100, 50, 50⟩).N ∧
    0 < ((CROP_NPK_CONSUMPTION.lookup crop).getD ⟨100, 50, 50⟩).P ∧
    0 < ((CROP_NPK_CONSUMPTION.lookup crop).getD ⟨100, 50, 50⟩).K := by
  cases h : CROP_NPK_CONSUMPTION.lookup crop with
  | none => simp only [Option.getD_none]; norm_num
  | some v =>
    have hv := lookup_mem h
    have hall : ∀ x ∈ CROP_NPK_CONSUMPTION.map Prod.snd, 0 < x.N ∧ 0 < x.P ∧ 0 < x.K := by
      intro x hx
      fin_cases hx <;> refine ⟨by norm_num, by norm_num, by norm_num⟩
    simp only [Option.getD_some]
    exact hall v hv

/-- Clamping an integer between 0 and 100 lands in that range. -/
lemma clamp_bounds (z : ℤ) : 0 ≤ max 0 (min 100 z) ∧ max 0 (min 100 z) ≤ 100 :=
  ⟨le_max_left 0 _, max_le (by norm_num) (min_le_left _ _)⟩

/-- Truncating toward zero commutes with clamping to the 0 to 100 range. -/
lemma pyInt_clamp (q : ℚ) : max 0 (min 100 (pyInt q)) = pyInt (max 0 (min 100 q)) := by
  unfold pyInt
  rcases le_or_lt 0 q with h | h
  · rcases le_or_lt q 100 with h2 | h2
    · rw [min_eq_right h2, max_eq_right h, if_pos h]
      have hf0 : (0:ℤ) ≤ ⌊q⌋ := Int.floor_nonneg.mpr h
      have hf100 : ⌊q⌋ ≤ 100 := by simpa using Int.floor_le_floor h2
      rw [min_eq_right hf100, max_eq_right hf0]
    · rw [if_pos h, min_eq_left h2.le, max_eq_right (by norm_num : (0:ℚ) ≤ 100),
        if_pos (by norm_num : (0:ℚ) ≤ 100)]
      have hf : (100:ℤ) ≤ ⌊q⌋ := Int.le_floor.mpr (by exact_mod_cast h2.le)
      rw [min_eq_left hf, max_eq_right (by norm_num : (0:ℤ) ≤ 100)]
      norm_num
  · rw [if_neg (not_le.mpr h), min_eq_right (by linarith : q ≤ 100), max_eq_left h.le,
      if_pos (le_refl (0:ℚ))]
    have hc : ⌈q⌉ ≤ 0 := Int.ceil_le.mpr (by exact_mod_cast h.le)
    rw [min_eq_right (hc.trans (by norm_num)), max_eq_left hc]
    norm_num

/-- A list guarded by its own emptiness check with a non-empty fallback is
never empty. -/
lemma ite_isEmpty_ne_nil {α : Type} (l f : List α) (hf : f ≠ []) :
    (if l.isEmpty then f else l) ≠ [] := by
  split
  · exact hf
  · next h =>
    intro hnil
    rw [hnil] at h
    exact h rfl

/-- C6: for every crop and soil_params and any two duration_months values, the
reports returned by analyze_soil_impact coincide: the whole analysis, the
times-four seasonal rainfall derivation included, never reads the
caller-supplied duration_months argument. -/
theorem analyze_soil_impact_ignores_duration (crop : String) (sp : SoilParams)
    (d1 d2 : ℤ) : analyze_soil_impact crop sp d1 = analyze_soil_impact crop sp d2 := rfl

/-- C8: for every input to analyze_soil_impact, the crop_rotation.suggestions
list and the recommendations list of the returned report are both non-empty;
when nothing triggers, the soil-health-is-good suggestion and the
maintain-current-practices entry are the fallbacks. -/
theorem report_suggestion_lists_nonempty (crop : String) (sp : SoilParams) (dm : ℤ) :
    (analyze_soil_impact crop sp dm).crop_rotation.suggestions ≠ [] ∧
    (analyze_soil_impact crop sp dm).recommendations ≠ [] := by
  constructor
  · show (suggest_crop_rotation (lower crop)
      (calculate_nutrient_depletion (lower crop) sp)).suggestions ≠ []
    unfold suggest_crop_rotation
    exact ite_isEmpty_ne_nil _ _ (by simp)
  · show generate_recommendations (lower crop)
      (calculate_nutrient_depletion (lower crop) sp)
      (calculate_water_risk (lower crop) (sp.rainfall.getD 0))
      (calculate_sustainability_score (calculate_nutrient_depletion (lower crop) sp)
        (calculate_water_risk (lower crop) (sp.rainfall.getD 0)) sp) ≠ []
    unfold generate_recommendations
    exact ite_isEmpty_ne_nil _ _ (by simp)

/-- C4: for every crop and rainfall, the water risk report has seasonal
rainfall equal to four times the rainfall, deficit and surplus given by the
clamped differences with the crop's water need, and the risk level given by
the deficit over 400, deficit over 200, surplus over 400 ladder; concretely,
rice at rainfall 202 yields seasonal rainfall 808, deficit 392 and a medium
risk level. -/
theorem water_risk_formulas :
    (∀ (crop : String) (rainfall : ℚ),
      (calculate_water_risk crop rainfall).available_water = rainfall * 4 ∧
      (calculate_water_risk crop rainfall).deficit
        = max 0 ((calculate_water_risk crop rainfall).water_need - rainfall * 4) ∧
      (calculate_water_risk crop rainfall).surplus
        = max 0 (rainfall * 4 - (calculate_water_risk crop rainfall).water_need) ∧
      (calculate_water_risk crop rainfall).risk_level
        = (if (calculate_water_risk crop rainfall).deficit > 400 then "high"
           else if (calculate_water_risk crop rainfall).deficit > 200 then "medium"
           else if (calculate_water_risk crop rainfall).surplus > 400 then "medium"
           else "low")) ∧
    (calculate_water_risk "rice" 202).available_water = 808 ∧
    (calculate_water_risk "rice" 202).deficit = 392 ∧
    (calculate_water_risk "rice" 202).risk_level = "medium" := by
  have hlk : CROP_WATER_NEEDS.lookup "rice" = some 1200 := rfl
  refine ⟨fun crop rainfall => ⟨rfl, rfl, rfl, ?_⟩, ?_, ?_, ?_⟩
  · unfold calculate_water_risk
    dsimp only
    split_ifs <;> rfl
  · norm_num [calculate_water_risk, hlk]
  · norm_num [calculate_water_risk, hlk]
  · have h1 : ¬ (max 0 ((1200:ℚ) - 202 * 4) > 400) := by norm_num
    have h2 : max 0 ((1200:ℚ) - 202 * 4) > 200 := by norm_num
    simp only [calculate_water_risk, hlk, Option.getD_some]
    rw [if_neg h1, if_pos h2]

/-- C2 counterexample: for rice on soil with N equal to 1 and P and K equal to
600, the reported severity is severe while the bucketed average of the three
reported capped depletion percentages is moderate, so the severity does not
equal the bucketing of the reported capped percentages. -/
theorem severity_capped_average_counterexample :
    (calculate_nutrient_depletion "rice" ⟨some 1, some 600, some 600, none, none⟩).severity
      = "severe" ∧
    get_depletion_severity
      (calculate_nutrient_depletion "rice"
        ⟨some 1, some 600, some 600, none, none⟩).depletion_percent.N
      (calculate_nutrient_depletion "rice"
        ⟨some 1, some 600, some 600, none, none⟩).depletion_percent.P
      (calculate_nutrient_depletion "rice"
        ⟨some 1, some 600, some 600, none, none⟩).depletion_percent.K
      = "moderate" ∧
    (calculate_nutrient_depletion "rice" ⟨some 1, some 600, some 600, none, none⟩).severity
      ≠ get_depletion_severity
        (calculate_nutrient_depletion "rice"
          ⟨some 1, some 600, some 600, none, none⟩).depletion_percent.N
        (calculate_nutrient_depletion "rice"
          ⟨some 1, some 600, some 600, none, none⟩).depletion_percent.P
        (calculate_nutrient_depletion "rice"
          ⟨some 1, some 600, some 600, none, none⟩).depletion_percent.K := by
  have hlk : CROP_NPK_CONSUMPTION.lookup "rice" = some ⟨120, 60, 60⟩ := rfl
  have h1 : (calculate_nutrient_depletion "rice"
      ⟨some 1, some 600, some 600, none, none⟩).severity = "severe" := by
    simp only [calculate_nutrient_depletion, hlk, Option.getD_some, get_depletion_severity]
    norm_num
  have hdp : (calculate_nutrient_depletion "rice"
      ⟨some 1, some 600, some 600, none, none⟩).depletion_percent = ⟨100, 10, 10⟩ := by
    simp only [calculate_nutrient_depletion, hlk, Option.getD_some]
    norm_num
  have h2 : get_depletion_severity
      (calculate_nutrient_depletion "rice"
        ⟨some 1, some 600, some 600, none, none⟩).depletion_percent.N
      (calculate_nutrient_depletion "rice"
        ⟨some 1, some 600, some 600, none, none⟩).depletion_percent.P
      (calculate_nutrient_depletion "rice"
        ⟨some 1, some 600, some 600, none, none⟩).depletion_percent.K
      = "moderate" := by
    rw [hdp]
    simp only [get_depletion_severity]
    norm_num
  refine ⟨h1, h2, ?_⟩
  rw [h1, h2]
  decide

/-- C2 as the code computes it: the consumption, remaining and capped
depletion_percent formulas hold as stated and every reported percentage lies
in the 0 to 100 range, but the severity bucket is fed the three uncapped
ratios, not the reported capped values. -/
theorem nutrient_depletion_report_formulas (crop : String) (sp : SoilParams) :
    (calculate_nutrient_depletion crop sp).consumption
      = (CROP_NPK_CONSUMPTION.lookup crop).getD ⟨100, 50, 50⟩ ∧
    (calculate_nutrient_depletion crop sp).remaining
      = ⟨max 0 (sp.N.getD 50 - ((CROP_NPK_CONSUMPTION.lookup crop).getD ⟨100, 50, 50⟩).N),
         max 0 (sp.P.getD 50 - ((CROP_NPK_CONSUMPTION.lookup crop).getD ⟨100, 50, 50⟩).P),
         max 0 (sp.K.getD 50 - ((CROP_NPK_CONSUMPTION.lookup crop).getD ⟨100, 50, 50⟩).K)⟩ ∧
    (calculate_nutrient_depletion crop sp).depletion_percent
      = ⟨min 100 (((CROP_NPK_CONSUMPTION.lookup crop).getD ⟨100, 50, 50⟩).N
            / max (sp.N.getD 50) 1 * 100),
         min 100 (((CROP_NPK_CONSUMPTION.lookup crop).getD ⟨100, 50, 50⟩).P
            / max (sp.P.getD 50) 1 * 100),
         min 100 (((CROP_NPK_CONSUMPTION.lookup crop).getD ⟨100, 50, 50⟩).K
            / max (sp.K.getD 50) 1 * 100)⟩ ∧
    (0 ≤ (calculate_nutrient_depletion crop sp).depletion_percent.N ∧
      (calculate_nutrient_depletion crop sp).depletion_percent.N ≤ 100) ∧
    (0 ≤ (calculate_nutrient_depletion crop sp).depletion_percent.P ∧
      (calculate_nutrient_depletion crop sp).depletion_percent.P ≤ 100) ∧
    (0 ≤ (calculate_nutrient_depletion crop sp).depletion_percent.K ∧
      (calculate_nutrient_depletion crop sp).depletion_percent.K ≤ 100) ∧
    (calculate_nutrient_depletion crop sp).severity
      = get_depletion_severity
          (((CROP_NPK_CONSUMPTION.lookup crop).getD ⟨100, 50, 50⟩).N
            / max (sp.N.getD 50) 1 * 100)
          (((CROP_NPK_CONSUMPTION.lookup crop).getD ⟨100, 50, 50⟩).P
            / max (sp.P.getD 50) 1 * 100)
          (((CROP_NPK_CONSUMPTION.lookup crop).getD ⟨100, 50, 50⟩).K
            / max (sp.K.getD 50) 1 * 100) := by
  obtain ⟨hN, hP, hK⟩ := consumption_pos crop
  have hbound : ∀ (c cur : ℚ), 0 < c →
      0 ≤ min 100 (c / max cur 1 * 100) ∧ min 100 (c / max cur 1 * 100) ≤ 100 := by
    intro c cur hc
    constructor
    · refine le_min (by norm_num) ?_
      have hden : (0:ℚ) < max cur 1 := lt_of_lt_of_le zero_lt_one (le_max_right cur 1)
      exact mul_nonneg (div_nonneg hc.le hden.le) (by norm_num)
    · exact min_le_left _ _
  exact ⟨rfl, rfl, rfl, hbound _ _ hN, hbound _ _ hP, hbound _ _ hK, rfl⟩

/-- C3: for every depletion report, water risk report and soil parameters, the
sustainability score equals the truncation of the clamped value of 100 minus
0.3 times the average reported depletion percentage, minus the 20 or 10 water
risk penalty, plus the 5 point pH bonus, and it always lies between 0 and
100, whatever the inputs. -/
theorem sustainability_score_formula_and_bounds (d : Depletion) (w : WaterRisk)
    (sp : SoilParams) :
    calculate_sustainability_score d w sp
      = pyInt (max 0 (min 100 (100
          - (d.depletion_percent.N + d.depletion_percent.P + d.depletion_percent.K) / 3 * 0.3
          - (if w.risk_level = "high" then 20 else if w.risk_level = "medium" then 10 else 0)
          + (if 6.0 ≤ sp.pH.getD 7 ∧ sp.pH.getD 7 ≤ 7.5 then 5 else 0)))) ∧
    0 ≤ calculate_sustainability_score d w sp ∧
    calculate_sustainability_score d w sp ≤ 100 := by
  refine ⟨?_, ?_, ?_⟩
  · unfold calculate_sustainability_score
    dsimp only
    split_ifs <;> rw [pyInt_clamp] <;> ring_nf
  · exact (clamp_bounds _).1
  · exact (clamp_bounds _).2

/-- C7: when the lowercased crop name is in neither static profile table, the
analysis proceeds on the default profile with consumption 100, 50, 50 and
water need 600; with current N of 50 this makes the reported N depletion
percentage the capped value of 100 over 50 times 100. -/
theorem unknown_crop_uses_default_profile (crop : String) (sp : SoilParams) (dm : ℤ)
    (hc : CROP_NPK_CONSUMPTION.lookup (lower crop) = none)
    (hw : CROP_WATER_NEEDS.lookup (lower crop) = none) :
    (analyze_soil_impact crop sp dm).nutrient_depletion.consumption = ⟨100, 50, 50⟩ ∧
    (analyze_soil_impact crop sp dm).water_risk.water_need = 600 ∧
    (analyze_soil_impact crop sp dm).nutrient_depletion.depletion_percent.N
      = min 100 (100 / max (sp.N.getD 50) 1 * 100) := by
  refine ⟨?_, ?_, ?_⟩
  · simp only [analyze_soil_impact, calculate_nutrient_depletion, hc, Option.getD_none]
  · simp only [analyze_soil_impact, calculate_water_risk, hw, Option.getD_none]
  · simp only [analyze_soil_impact, calculate_nutrient_depletion, hc, Option.getD_none]

/-- C7 witness: the unknown crop dragonfruit with current N of 50 falls back
to the default profile and reports an N depletion percentage of exactly 100. -/
theorem unknown_crop_uses_default_profile_witness :
    CROP_NPK_CONSUMPTION.lookup (lower "dragonfruit") = none ∧
    CROP_WATER_NEEDS.lookup (lower "dragonfruit") = none ∧
    (analyze_soil_impact "dragonfruit"
      ⟨some 50, none, none, none, none⟩ 4).nutrient_depletion.consumption = ⟨100, 50, 50⟩ ∧
    (analyze_soil_impact "dragonfruit"
      ⟨some 50, none, none, none, none⟩ 4).nutrient_depletion.depletion_percent.N = 100 := by
  have hc : CROP_NPK_CONSUMPTION.lookup (lower "dragonfruit") = none := rfl
  have hw : CROP_WATER_NEEDS.lookup (lower "dragonfruit") = none := rfl
  have h := unknown_crop_uses_default_profile "dragonfruit"
    ⟨some 50, none, none, none, none⟩ 4 hc hw
  refine ⟨hc, hw, h.1, ?_⟩
  rw [h.2.2]
  norm_num

/-- The argsort model is sorted with respect to its value-then-index order. -/
lemma argsort_sorted (p : List ℚ) : (argsort p).Sorted (argsortLe p) :=
  List.sorted_insertionSort _ _

/-- The argsort model is a permutation of all positions of the vector. -/
lemma argsort_perm (p : List ℚ) : (argsort p).Perm (List.range p.length) :=
  List.perm_insertionSort _ _

/-- The argsort model has one entry per position of the vector. -/
lemma argsort_length (p : List ℚ) : (argsort p).length = p.length := by
  rw [(argsort_perm p).length_eq, List.length_range]

/-- The argsort model lists no position twice. -/
lemma argsort_nodup (p : List ℚ) : (argsort p).Nodup :=
  (argsort_perm p).symm.nodup (List.nodup_range _)

/-- The slice model keeps a subsequence of the original list. -/
lemma takeLast_sublist {α : Type} (n : ℕ) (l : List α) : (takeLast n l).Sublist l := by
  unfold takeLast
  split
  · exact List.Sublist.refl l
  · exact List.drop_sublist _ _

/-- For a positive count within range the slice model returns that many
elements. -/
lemma takeLast_length {α : Type} (n : ℕ) (l : List α) (h0 : n ≠ 0)
    (h : n ≤ l.length) : (takeLast n l).length = n := by
  unfold takeLast
  rw [if_neg h0, List.length_drop]
  omega

/-- Every selected top index is a valid position of the probability vector. -/
lemma top_indices_mem {p : List ℚ} {n i : ℕ} (h : i ∈ top_indices p n) :
    i < p.length := by
  rw [top_indices, List.mem_reverse] at h
  have h2 := (takeLast_sublist n (argsort p)).subset h
  have h3 := (argsort_perm p).mem_iff.mp h2
  exact List.mem_range.mp h3

/-- The selected top indices are pairwise distinct. -/
lemma top_indices_nodup (p : List ℚ) (n : ℕ) : (top_indices p n).Nodup := by
  rw [top_indices, List.nodup_reverse]
  exact (argsort_nodup p).sublist (takeLast_sublist _ _)

/-- The selected top indices are pairwise in descending value-then-index
order: a later entry is related below an earlier one. -/
lemma top_indices_pairwise (p : List ℚ) (n : ℕ) :
    (top_indices p n).Pairwise (fun a b => argsortLe p b a) := by
  rw [top_indices, List.pairwise_reverse]
  exact (argsort_sorted p).sublist (takeLast_sublist _ _)

/-- Reading every position of a list in order reproduces the list. -/
lemma map_getD_range {α : Type} (l : List α) (d : α) :
    (List.range l.length).map (fun i => l.getD i d) = l := by
  induction l with
  | nil => rfl
  | cons a t ih =>
    rw [List.length_cons, List.range_succ_eq_map, List.map_cons, List.map_map]
    have hcomp : ((fun i => (a :: t).getD i d) ∘ Nat.succ) = fun i => t.getD i d := by
      funext i
      simp [List.getD_cons_succ]
    rw [hcomp, ih]
    simp

/-- The ranked output is always sorted with confidences non-increasing. -/
lemma get_top_n_sorted (p : List ℚ) (labels : List String) (n : ℕ) :
    (get_top_n_predictions p labels n).Pairwise
      (fun a b => b.confidence ≤ a.confidence) := by
  rw [get_top_n_predictions, List.pairwise_map]
  refine (top_indices_pairwise p n).imp ?_
  intro a b h
  rcases h with h | ⟨h, _⟩
  · exact h.le
  · exact le_of_eq h

/-- C5: for aligned probability and label lists and a requested count n
between 1 and the label count, the ranker returns exactly n predictions,
sorted non-increasing by confidence, each carrying the label and the
unmodified probability of some position of the input. -/
theorem get_top_n_spec (p : List ℚ) (labels : List String) (n : ℕ)
    (hlen : labels.length = p.length) (hn1 : 1 ≤ n) (hn2 : n ≤ labels.length) :
    (get_top_n_predictions p labels n).length = n ∧
    (get_top_n_predictions p labels n).Pairwise
      (fun a b => b.confidence ≤ a.confidence) ∧
    ∀ pr ∈ get_top_n_predictions p labels n, ∃ i, i < p.length ∧
      pr.crop = labels.getD i "" ∧ pr.confidence = p.getD i 0 := by
  refine ⟨?_, get_top_n_sorted p labels n, ?_⟩
  · simp only [get_top_n_predictions, List.length_map, top_indices, List.length_reverse]
    exact takeLast_length _ _ (by omega) (by rw [argsort_length]; omega)
  · intro pr hpr
    rw [get_top_n_predictions, List.mem_map] at hpr
    obtain ⟨idx, hidx, rfl⟩ := hpr
    exact ⟨idx, top_indices_mem hidx, rfl, rfl⟩

/-- C5 witness: a concrete three-label instance with n = 2 satisfies the
hypotheses and hence the ranked-output contract. -/
theorem get_top_n_spec_witness :
    (["a", "b", "c"].length = [(3:ℚ)/10, 1/2, 1/5].length ∧
      1 ≤ 2 ∧ 2 ≤ ["a", "b", "c"].length) ∧
    ((get_top_n_predictions [(3:ℚ)/10, 1/2, 1/5] ["a", "b", "c"] 2).length = 2 ∧
     (get_top_n_predictions [(3:ℚ)/10, 1/2, 1/5] ["a", "b", "c"] 2).Pairwise
       (fun a b => b.confidence ≤ a.confidence) ∧
     ∀ pr ∈ get_top_n_predictions [(3:ℚ)/10, 1/2, 1/5] ["a", "b", "c"] 2,
       ∃ i, i < [(3:ℚ)/10, 1/2, 1/5].length ∧ pr.crop = ["a", "b", "c"].getD i "" ∧
         pr.confidence = [(3:ℚ)/10, 1/2, 1/5].getD i 0) := by
  refine ⟨⟨rfl, by norm_num, by norm_num⟩, ?_⟩
  exact get_top_n_spec [(3:ℚ)/10, 1/2, 1/5] ["a", "b", "c"] 2 rfl (by norm_num) (by norm_num)

/-- C10: at n = 0 the Python slice [-0:] selects the whole array, so the
ranker returns one prediction per label, a permutation of the full label set
ordered non-increasing by confidence, of length the label count. -/
theorem get_top_n_zero_returns_all (p : List ℚ) (labels : List String)
    (hlen : labels.length = p.length) :
    (get_top_n_predictions p labels 0).length = labels.length ∧
    ((get_top_n_predictions p labels 0).map Prediction.crop).Perm labels ∧
    (get_top_n_predictions p labels 0).Pairwise
      (fun a b => b.confidence ≤ a.confidence) := by
  have htl : takeLast 0 (argsort p) = argsort p := if_pos rfl
  refine ⟨?_, ?_, get_top_n_sorted p labels 0⟩
  · simp only [get_top_n_predictions, List.length_map, top_indices, htl,
      List.length_reverse, argsort_length, hlen]
  · rw [get_top_n_predictions, List.map_map, top_indices, htl]
    have hperm : ((argsort p).reverse).Perm (List.range p.length) :=
      (List.reverse_perm _).trans (argsort_perm p)
    have hmap := hperm.map (fun i => labels.getD i "")
    rw [← hlen, map_getD_range] at hmap
    exact hmap

/-- C10 witness: a concrete aligned instance at n = 0 returns all labels. -/
theorem get_top_n_zero_returns_all_witness :
    (["a", "b"].length = [(3:ℚ)/10, 1/2].length) ∧
    ((get_top_n_predictions [(3:ℚ)/10, 1/2] ["a", "b"] 0).length = ["a", "b"].length ∧
     ((get_top_n_predictions [(3:ℚ)/10, 1/2] ["a", "b"] 0).map Prediction.crop).Perm
       ["a", "b"] ∧
     (get_top_n_predictions [(3:ℚ)/10, 1/2] ["a", "b"] 0).Pairwise
       (fun a b => b.confidence ≤ a.confidence)) :=
  ⟨rfl, get_top_n_zero_returns_all [(3:ℚ)/10, 1/2] ["a", "b"] rfl⟩

/-- C1 counterexample: with equal probabilities one half and one half on
labels a then b and n = 2, the ranked output lists b before a, so the label
with the lower original index is not placed first. -/
theorem get_top_n_ties_counterexample :
    [(1:ℚ)/2, 1/2].getD 0 0 = [(1:ℚ)/2, 1/2].getD 1 0 ∧
    (get_top_n_predictions [(1:ℚ)/2, 1/2] ["a", "b"] 2).map Prediction.crop = ["b", "a"] ∧
    ¬ (((get_top_n_predictions [(1:ℚ)/2, 1/2] ["a", "b"] 2).map Prediction.crop).indexOf "a"
        < ((get_top_n_predictions [(1:ℚ)/2, 1/2] ["a", "b"] 2).map
            Prediction.crop).indexOf "b") := by
  have htop : top_indices [(1:ℚ)/2, 1/2] 2 = [1, 0] := by
    norm_num [top_indices, takeLast, argsort, argsortLe, List.range_succ]
  have hmap : (get_top_n_predictions [(1:ℚ)/2, 1/2] ["a", "b"] 2).map Prediction.crop
      = ["b", "a"] := by
    rw [get_top_n_predictions, htop]
    rfl
  refine ⟨rfl, hmap, ?_⟩
  rw [hmap]
  decide

/-- C1 (amended): under the stable argsort model, the ascending order is
reversed, so whenever two positions carry equal probability and both are
selected, the label with the higher original index is placed before the one
with the lower original index in the ranked output. -/
theorem get_top_n_ties_higher_index_first (p : List ℚ) (labels : List String) (n : ℕ)
    (hlen : labels.length = p.length) (hn1 : 1 ≤ n) (hn2 : n ≤ labels.length)
    (i j : ℕ) (hij : i < j) (heq : p.getD i 0 = p.getD j 0)
    (hi : i ∈ top_indices p n) (hj : j ∈ top_indices p n) :
    (top_indices p n).indexOf j < (top_indices p n).indexOf i ∧
    get_top_n_predictions p labels n
      = (top_indices p n).map (fun idx =>
          { crop := labels.getD idx ""
            confidence := p.getD idx 0
            confidence_percent := format_confidence_score (p.getD idx 0) }) := by
  refine ⟨?_, rfl⟩
  have hpw := top_indices_pairwise p n
  have hi' : (top_indices p n).indexOf i < (top_indices p n).length :=
    List.indexOf_lt_length.mpr hi
  have hj' : (top_indices p n).indexOf j < (top_indices p n).length :=
    List.indexOf_lt_length.mpr hj
  by_contra hcon
  push_neg at hcon
  have hne : (top_indices p n).indexOf i ≠ (top_indices p n).indexOf j := fun he =>
    absurd ((List.indexOf_inj hi hj).mp he) (by omega)
  have hlt : (top_indices p n).indexOf i < (top_indices p n).indexOf j :=
    lt_of_le_of_ne hcon hne
  have hrel := List.pairwise_iff_getElem.mp hpw _ _ hi' hj' hlt
  rw [List.getElem_indexOf hi', List.getElem_indexOf hj'] at hrel
  rcases hrel with h | ⟨h, hle⟩
  · rw [heq] at h
    exact lt_irrefl _ h
  · omega

/-- C1 witness: at probabilities one half, one half, one quarter with n = 2,
positions 0 and 1 tie, both are selected, and position 1 precedes position 0
in the output order. -/
theorem get_top_n_ties_higher_index_first_witness :
    (["a", "b", "c"].length = [(1:ℚ)/2, 1/2, 1/4].length ∧
      [(1:ℚ)/2, 1/2, 1/4].getD 0 0 = [(1:ℚ)/2, 1/2, 1/4].getD 1 0 ∧
      0 ∈ top_indices [(1:ℚ)/2, 1/2, 1/4] 2 ∧ 1 ∈ top_indices [(1:ℚ)/2, 1/2, 1/4] 2) ∧
    (top_indices [(1:ℚ)/2, 1/2, 1/4] 2).indexOf 1
      < (top_indices [(1:ℚ)/2, 1/2, 1/4] 2).indexOf 0 := by
  have htop : top_indices [(1:ℚ)/2, 1/2, 1/4] 2 = [1, 0] := by
    norm_num [top_indices, takeLast, argsort, argsortLe, List.range_succ]
  have hi : 0 ∈ top_indices [(1:ℚ)/2, 1/2, 1/4] 2 := by rw [htop]; simp
  have hj : 1 ∈ top_indices [(1:ℚ)/2, 1/2, 1/4] 2 := by rw [htop]; simp
  refine ⟨⟨rfl, rfl, hi, hj⟩, ?_⟩
  exact (get_top_n_ties_higher_index_first [(1:ℚ)/2, 1/2, 1/4] ["a", "b", "c"] 2 rfl
    (by norm_num) (by norm_num) 0 1 (by norm_num) rfl hi hj).1

/-- Filtering the non-empty results of a map is the same as filter-mapping
with an emptiness test. -/
lemma filter_map_eq_filterMap {α : Type} (g : α → String) (l : List α) :
    (l.map g).filter (fun s => s ≠ "")
      = l.filterMap (fun a => if g a = "" then none else some (g a)) := by
  induction l with
  | nil => rfl
  | cons a t ih =>
    rw [List.map_cons, List.filterMap_cons]
    by_cases h : g a = ""
    · rw [if_pos h, List.filter_cons_of_neg (by simp [h])]
      exact ih
    · rw [if_neg h, List.filter_cons_of_pos (by simp [h]), ih]

/-- Branching on the boolean emptiness test agrees with branching on equality
with the empty list. -/
lemma ite_isEmpty_eq_ite_nil {β : Type} (l : List String) (a b : β) :
    (if l.isEmpty then a else b) = (if l = [] then a else b) := by
  by_cases h : l = []
  · rw [if_pos (show l.isEmpty = true by simp [h]), if_pos h]
  · rw [if_neg (show ¬ l.isEmpty = true from fun hc => h (List.isEmpty_iff.mp hc)), if_neg h]

/-- C9: the narrative explanation of the code coincides, for every features
mapping, crop and importance mapping, with the specification's description:
the single-space concatenation in importance-descending order of the ladder
phrases of the top 3 features by global importance, with the generic fallback
sentence when no selected feature yields a phrase; determinism is immediate
since both sides are functions of the inputs. -/
theorem explanation_matches_spec (features : List (String × ℚ)) (crop : String)
    (imp : List (String × ℚ)) :
    generate_human_readable_explanation features crop imp
      = explanationSpec features crop imp := by
  unfold generate_human_readable_explanation explanationSpec
  dsimp only
  rw [show get_feature_explanation = spec_feature_phrase from rfl,
    filter_map_eq_filterMap, ite_isEmpty_eq_ite_nil]

end Agronomist
